import Mathlib

/-!
Verification development for
`src/py/flwr_experimental/baseline/pytorch/cifar/dataloader.py`.

The module has two components:

* `CIFAR_PartitionedDataset` (with the `CIFAR10PartitionedDataset` and
  `CIFAR100PartitionedDataset` specializations): a random-access dataset view
  over a single partition file; and
* the `__main__` generation script, which fetches the CIFAR source dataset,
  calls the external LDA partitioner and writes each shard to disk.

The embedding below translates the Python code shallowly:

* Python exceptions become the `PyErr` inductive; fallible operations return
  `Except PyErr _`.
* Filesystem paths are component lists (`PyPath : Type := List String`); `p / s`
  appends one component.
* The filesystem is an explicit parameter `fs : PyPath → Option PartitionFile`
  (`none` = file absent); `torch.load` of an existing partition file yields
  its `(X, Y)` array pair.
* numpy arrays and torch tensors are wrapped lists (`NpArray`, `Tensor`);
  `from_numpy` is the pure representation conversion between them.
* Tensor indexing follows Python semantics: a negative index counts from the
  end, and an index out of range raises `IndexError`.
* Python attribute slots that the class may or may not have assigned are
  `Option`-valued fields of the object state: `none` means the attribute was
  never assigned, so reading it raises `AttributeError`.  The constructor of
  `CIFAR_PartitionedDataset` never assigns `self.transform` (nor the
  misspelled `self.trasform` read by `__getitem__`), which the model records
  by leaving both slots unassigned.
* Python keyword-argument binding for the constructors is modelled by
  `CIFAR_PartitionedDataset.call`: each keyword is an `Option` (provided or
  not); a missing required keyword-only argument raises `TypeError` before
  the body runs, and a missing optional keyword takes its default.
-/

set_option autoImplicit false

/-- Python exceptions raised by the code under verification. -/
inductive PyErr : Type where
  | ValueError
  | RuntimeError
  | IndexError
  | AttributeError
  | TypeError
  deriving DecidableEq, Repr

/-- The spec's error taxonomy calls the invalid-`num_classes` error
`ConfigurationError`; in the source it is a Python `ValueError`. -/
def ConfigurationError : PyErr := PyErr.ValueError

/-- The spec's error taxonomy calls the missing-partition-file error
`NotFoundError`; in the source it is a Python `RuntimeError`. -/
def NotFoundError : PyErr := PyErr.RuntimeError

/-- A filesystem path, as its list of components; `p / s` is `p ++ [s]`. -/
abbrev PyPath : Type := List String

/-- Feature datum of one example (an image, as raw numeric data). -/
abbrev Feature : Type := List Int

/-- Class label of one example. -/
abbrev Label : Type := Int

/-- A transform is a callable on features (`Optional[callable]` in the
source becomes `Option Transform`, with Python `None` as `none`). -/
abbrev Transform : Type := Feature → Feature

/-- A numpy array, as the list of its dim-0 slices. -/
structure NpArray (α : Type) : Type where
  data : List α
  deriving DecidableEq, Repr

/-- A torch tensor, as the list of its dim-0 slices. -/
structure Tensor (α : Type) : Type where
  data : List α
  deriving DecidableEq, Repr

/-- `torch.from_numpy`: pure representation conversion, no numeric change. -/
def from_numpy {α : Type} (a : NpArray α) : Tensor α := ⟨a.data⟩

/-- Effective index of Python indexing `t[i]` into a sequence of length `n`:
a negative `i` counts from the end. -/
def pyIdx (i : Int) (n : Nat) : Int :=
  if i < 0 then i + (n : Int) else i

/-- Python indexing `t[i]` on dim 0 of a tensor: a negative index counts
from the end; an index out of range raises `IndexError`. -/
def Tensor.getPy {α : Type} (t : Tensor α) (i : Int) : Except PyErr α :=
  if h : 0 ≤ pyIdx i t.data.length ∧ pyIdx i t.data.length < (t.data.length : Int) then
    Except.ok (t.data.get ⟨(pyIdx i t.data.length).toNat, by omega⟩)
  else
    Except.error PyErr.IndexError

/-- Content of a partition file: the serialized `(X, Y)` numpy-array pair
that `torch.load` returns (`X` features, `Y` labels). -/
structure PartitionFile : Type where
  X : NpArray Feature
  Y : NpArray Label
  deriving DecidableEq, Repr

/-- The filesystem, mapping each path to the partition file stored there
(`none` when no file exists at that path). -/
abbrev FileSystem : Type := PyPath → Option PartitionFile

/-- `DATA_ROOT: str = "~/.flower/data/cifar"` (the string, used as the
download root of the CIFAR provider in the generation script). -/
def DATA_ROOT : String := "~/.flower/data/cifar"

/-- `PyPath(DATA_ROOT)` as a component list, the default `root_dir`. -/
def DATA_ROOT_PATH : PyPath := ["~", ".flower", "data", "cifar"]

/-- Object state of a constructed `CIFAR_PartitionedDataset`: the attributes
its `__init__` assigns (`root_dir`, `partition_id`, `partition_path`, `X`,
`Y`).  The `transform` and `trasform` slots are `Option (Option Transform)`:
the outer `none` means the attribute was never assigned (reading it raises
`AttributeError`); `some v` means it holds the Python value `v`
(`some none` = holds `None`). -/
structure DatasetState : Type where
  root_dir : PyPath
  partition_id : Int
  partition_path : PyPath
  X : Tensor Feature
  Y : Tensor Label
  attr_transform : Option (Option Transform)
  attr_trasform : Option (Option Transform)

namespace CIFAR_PartitionedDataset

/-- The file name `f"cifar{num_classes}_{partition_id}.pt"`. -/
def partition_file_name (num_classes partition_id : Int) : String :=
  "cifar" ++ toString num_classes ++ "_" ++ toString partition_id ++ ".pt"

/-- Body of `CIFAR_PartitionedDataset.__init__` (after keyword binding):
check `num_classes`, derive `partition_path`, check existence, load the
file and convert its arrays with `from_numpy`.  Note the body assigns
`self.root_dir`, `self.partition_id`, `self.partition_path`, `self.X`
and `self.Y`, but never `self.transform` (nor `self.trasform`), so both
attribute slots stay unassigned. -/
def init (num_classes : Int) (root_dir : PyPath) (partition_id : Int)
    (transform : Option Transform) (fs : FileSystem) :
    Except PyErr DatasetState :=
  if num_classes ∉ ([10, 100] : List Int) then
    Except.error PyErr.ValueError
  else
    match fs (root_dir ++ [partition_file_name num_classes partition_id]) with
    | none => Except.error PyErr.RuntimeError
    | some file =>
        Except.ok
          { root_dir := root_dir
            partition_id := partition_id
            partition_path :=
              root_dir ++ [partition_file_name num_classes partition_id]
            X := from_numpy file.X
            Y := from_numpy file.Y
            attr_transform := none
            attr_trasform := none }

/-- Keyword binding of a call to `CIFAR_PartitionedDataset.__init__`: every
parameter is keyword-only; `num_classes` defaults to `10` and `root_dir` to
`DATA_ROOT`, while `partition_id` and `transform` have no default, so a call
that omits either raises `TypeError` before the body runs.  The `transform`
parameter is unused by the body (never assigned to an attribute). -/
def call (num_classes : Option Int) (root_dir : Option PyPath)
    (partition_id : Option Int) (transform : Option (Option Transform))
    (fs : FileSystem) : Except PyErr DatasetState :=
  match partition_id, transform with
  | some pid, some t =>
      init (num_classes.getD 10) (root_dir.getD DATA_ROOT_PATH) pid t fs
  | _, _ => Except.error PyErr.TypeError

end CIFAR_PartitionedDataset

/-- `CIFAR_PartitionedDataset.__len__`: `len(self.X)`. -/
def DatasetState.len (s : DatasetState) : Nat :=
  s.X.data.length

/-- `CIFAR_PartitionedDataset.__getitem__`: index into `self.X` and
`self.Y`, then read `self.transform`; when that attribute is truthy, call
`self.trasform` (sic) on `x`.  Reading an unassigned attribute raises
`AttributeError`; calling `None` would raise `TypeError`. -/
def DatasetState.getitem (s : DatasetState) (idx : Int) :
    Except PyErr (Feature × Label) := do
  let x ← s.X.getPy idx
  let y ← s.Y.getPy idx
  match s.attr_transform with
  | none => Except.error PyErr.AttributeError
  | some t =>
      if t.isSome then
        match s.attr_trasform with
        | none => Except.error PyErr.AttributeError
        | some none => Except.error PyErr.TypeError
        | some (some f) => Except.ok (f x, y)
      else
        Except.ok (x, y)

/-- `CIFAR10PartitionedDataset.__init__`: binds its own keyword-only
parameters (`root_dir` defaulting to `DATA_ROOT`, `partition_id` required),
then runs `super().__init__(num_classes=10, root_dir=root_dir,
partition_id=partition_id)` — without the `transform` keyword. -/
def CIFAR10PartitionedDataset.init (root_dir : Option PyPath)
    (partition_id : Int) (fs : FileSystem) : Except PyErr DatasetState :=
  CIFAR_PartitionedDataset.call (some 10)
    (some (root_dir.getD DATA_ROOT_PATH)) (some partition_id) none fs

/-- `CIFAR100PartitionedDataset.__init__`: same as the CIFAR10 variant with
`num_classes=100`; also omits the `transform` keyword. -/
def CIFAR100PartitionedDataset.init (root_dir : Option PyPath)
    (partition_id : Int) (fs : FileSystem) : Except PyErr DatasetState :=
  CIFAR_PartitionedDataset.call (some 100)
    (some (root_dir.getD DATA_ROOT_PATH)) (some partition_id) none fs

/-! ## General lemmas about the dataset view -/

/-- An in-range index (Python semantics: `-len ≤ i < len`) succeeds. -/
theorem Tensor.getPy_ok_of_range {α : Type} (t : Tensor α) (i : Int)
    (h1 : -(t.data.length : Int) ≤ i) (h2 : i < (t.data.length : Int)) :
    ∃ a, t.getPy i = Except.ok a := by
  have hj : 0 ≤ pyIdx i t.data.length ∧ pyIdx i t.data.length < (t.data.length : Int) := by
    unfold pyIdx
    split <;> omega
  exact ⟨_, dif_pos hj⟩

/-- An out-of-range index (`i < -len` or `i ≥ len`) raises `IndexError`. -/
theorem Tensor.getPy_error_of_out_of_range {α : Type} (t : Tensor α) (i : Int)
    (h : i < -(t.data.length : Int) ∨ (t.data.length : Int) ≤ i) :
    t.getPy i = Except.error PyErr.IndexError := by
  have hj : ¬ (0 ≤ pyIdx i t.data.length ∧ pyIdx i t.data.length < (t.data.length : Int)) := by
    unfold pyIdx
    split <;> omega
  exact dif_neg hj

/-- A successfully constructed `CIFAR_PartitionedDataset` never has its
`transform` attribute assigned. -/
theorem init_ok_attr_transform_none
    (num_classes : Int) (root_dir : PyPath) (partition_id : Int)
    (transform : Option Transform) (fs : FileSystem) (st : DatasetState)
    (hok : CIFAR_PartitionedDataset.init num_classes root_dir partition_id
      transform fs = Except.ok st) :
    st.attr_transform = none := by
  unfold CIFAR_PartitionedDataset.init at hok
  split at hok
  · exact absurd hok (by simp)
  · split at hok
    · exact absurd hok (by simp)
    · rw [Except.ok.injEq] at hok
      rw [← hok]

/-- A successfully constructed `CIFAR_PartitionedDataset` holds the loaded
arrays converted by `from_numpy`. -/
theorem init_ok_arrays
    (num_classes : Int) (root_dir : PyPath) (partition_id : Int)
    (transform : Option Transform) (fs : FileSystem) (st : DatasetState)
    (hok : CIFAR_PartitionedDataset.init num_classes root_dir partition_id
      transform fs = Except.ok st) :
    ∃ file, fs st.partition_path = some file ∧
      st.X = from_numpy file.X ∧ st.Y = from_numpy file.Y := by
  unfold CIFAR_PartitionedDataset.init at hok
  split at hok
  · exact absurd hok (by simp)
  · rename_i hvalid
    split at hok
    · exact absurd hok (by simp)
    · rename_i file hfile
      rw [Except.ok.injEq] at hok
      exact ⟨file, by rw [← hok]; exact hfile, by rw [← hok], by rw [← hok]⟩

/-! ## Claims C3 to C6: construction -/

/-- C3: For every `num_classes` outside `{10, 100}`, constructing the view
fails with `ConfigurationError` (the `ValueError` of the source), and does
so before any file-system access: the result is the same for every
filesystem. -/
theorem init_invalid_num_classes_fails
    (num_classes : Int) (root_dir : PyPath) (partition_id : Int)
    (transform : Option Transform) (fs fs' : FileSystem)
    (h : num_classes ∉ ([10, 100] : List Int)) :
    CIFAR_PartitionedDataset.init num_classes root_dir partition_id
        transform fs = Except.error ConfigurationError
    ∧ CIFAR_PartitionedDataset.init num_classes root_dir partition_id
        transform fs
      = CIFAR_PartitionedDataset.init num_classes root_dir partition_id
        transform fs' := by
  unfold CIFAR_PartitionedDataset.init
  rw [if_pos h, if_pos h]
  exact ⟨rfl, rfl⟩

/-- C3 witness: `num_classes = 7` fails with `ConfigurationError` on an
empty filesystem. -/
theorem init_invalid_num_classes_fails_witness :
    CIFAR_PartitionedDataset.init 7 ["root"] 0 none (fun _ => none)
      = Except.error ConfigurationError :=
  (init_invalid_num_classes_fails 7 ["root"] 0 none (fun _ => none)
    (fun _ => none) (by decide)).1

/-- C4: For valid `num_classes` in `{10, 100}`, the constructor derives the
partition path as `root_dir / "cifar{num_classes}_{partition_id}.pt"` (seen
in the `partition_path` attribute of any successfully constructed state)
and fails with `NotFoundError` if and only if no file exists at that
path. -/
theorem init_partition_path_and_not_found
    (num_classes : Int) (root_dir : PyPath) (partition_id : Int)
    (transform : Option Transform) (fs : FileSystem)
    (h : num_classes = 10 ∨ num_classes = 100) :
    (CIFAR_PartitionedDataset.init num_classes root_dir partition_id
        transform fs = Except.error NotFoundError
      ↔ fs (root_dir ++
          [CIFAR_PartitionedDataset.partition_file_name num_classes
            partition_id]) = none)
    ∧ (∀ st, CIFAR_PartitionedDataset.init num_classes root_dir partition_id
        transform fs = Except.ok st →
        st.partition_path = root_dir ++
          [CIFAR_PartitionedDataset.partition_file_name num_classes
            partition_id]) := by
  have hmem : num_classes ∈ ([10, 100] : List Int) := by
    rcases h with h | h <;> simp [h]
  unfold CIFAR_PartitionedDataset.init
  rw [if_neg (not_not_intro hmem)]
  cases hfs : fs (root_dir ++
      [CIFAR_PartitionedDataset.partition_file_name num_classes
        partition_id]) with
  | none =>
      refine ⟨⟨fun _ => rfl, fun _ => rfl⟩, fun st hst => ?_⟩
      exact absurd hst (by simp)
  | some file =>
      refine ⟨⟨fun hcontra => ?_, fun hcontra => ?_⟩, fun st hst => ?_⟩
      · exact absurd hcontra (by simp [NotFoundError])
      · exact absurd hcontra (by simp)
      · rw [Except.ok.injEq] at hst
        rw [← hst]

/-- C4 witness: with `num_classes = 10`, `root_dir = ["d"]`,
`partition_id = 3` and an empty filesystem, construction fails with
`NotFoundError`. -/
theorem init_partition_path_and_not_found_witness :
    CIFAR_PartitionedDataset.init 10 ["d"] 3 none (fun _ => none)
      = Except.error NotFoundError :=
  (init_partition_path_and_not_found 10 ["d"] 3 none (fun _ => none)
    (Or.inl rfl)).1.mpr rfl

/-- C5: Constructing `CIFAR10PartitionedDataset` (respectively
`CIFAR100PartitionedDataset`) behaves identically to calling the base
constructor with `num_classes` fixed to 10 (respectively 100) and with
`root_dir` and `partition_id` forwarded unchanged; the subclasses pass no
`transform` keyword and add nothing else. -/
theorem specializations_forward_to_base
    (root_dir : Option PyPath) (partition_id : Int) (fs : FileSystem) :
    CIFAR10PartitionedDataset.init root_dir partition_id fs
      = CIFAR_PartitionedDataset.call (some 10)
          (some (root_dir.getD DATA_ROOT_PATH)) (some partition_id) none fs
    ∧ CIFAR100PartitionedDataset.init root_dir partition_id fs
      = CIFAR_PartitionedDataset.call (some 100)
          (some (root_dir.getD DATA_ROOT_PATH)) (some partition_id) none
          fs :=
  ⟨rfl, rfl⟩

/-- C6: Both subclass constructors omit the required keyword-only
`transform` argument of the base constructor, so every construction of
`CIFAR10PartitionedDataset` or `CIFAR100PartitionedDataset` raises
`TypeError`, whatever the filesystem holds. -/
theorem specializations_always_type_error
    (root_dir : Option PyPath) (partition_id : Int) (fs : FileSystem) :
    CIFAR10PartitionedDataset.init root_dir partition_id fs
      = Except.error PyErr.TypeError
    ∧ CIFAR100PartitionedDataset.init root_dir partition_id fs
      = Except.error PyErr.TypeError :=
  ⟨rfl, rfl⟩

/-! ## Claims C1 and C2: length and item access -/

/-- Filesystem holding one partition file for `num_classes = 10`,
`partition_id = 0` under `["root"]`, with one example. -/
def fsC1 : FileSystem := fun p =>
  if p = ["root", CIFAR_PartitionedDataset.partition_file_name 10 0] then
    some ⟨⟨[[1, 2]]⟩, ⟨[5]⟩⟩
  else none

/-- The view state that construction over `fsC1` produces. -/
def stC1 : DatasetState :=
  { root_dir := ["root"]
    partition_id := 0
    partition_path := ["root",
      CIFAR_PartitionedDataset.partition_file_name 10 0]
    X := ⟨[[1, 2]]⟩
    Y := ⟨[5]⟩
    attr_transform := none
    attr_trasform := none }

/-- C1 counterexample: over a partition of length 1 the view is
successfully constructed and `Length()` is 1, but `GetItem(0)` does not
succeed — it raises `AttributeError` (the constructor never assigned
`self.transform`, which `__getitem__` reads) — and `GetItem(-1)` raises
`AttributeError` as well, not the `IndexError` the claim requires for
negative indices. -/
theorem getitem_c1_counterexample :
    CIFAR_PartitionedDataset.init 10 ["root"] 0 none fsC1 = Except.ok stC1
    ∧ stC1.len = 1
    ∧ stC1.getitem 0 = Except.error PyErr.AttributeError
    ∧ stC1.getitem (-1) = Except.error PyErr.AttributeError := by
  refine ⟨?_, rfl, rfl, rfl⟩
  rfl

/-- C1 (amended): For every successfully constructed view over a partition
file whose `Features` and `Labels` arrays have the same length `L`:
`Length()` returns `L`; `GetItem(i)` raises `AttributeError` for every `i`
with `-L ≤ i < L` (the index lookups succeed, then reading the unassigned
`transform` attribute fails); and `GetItem(i)` raises `IndexError` for
every `i` with `i < -L` or `i ≥ L`.  No call returns a pair. -/
theorem length_and_getitem_behavior
    (num_classes : Int) (root_dir : PyPath) (partition_id : Int)
    (transform : Option Transform) (fs : FileSystem) (st : DatasetState)
    (hok : CIFAR_PartitionedDataset.init num_classes root_dir partition_id
      transform fs = Except.ok st)
    (hXY : st.Y.data.length = st.X.data.length) :
    st.len = st.X.data.length
    ∧ (∀ i : Int, -(st.X.data.length : Int) ≤ i →
        i < (st.X.data.length : Int) →
        st.getitem i = Except.error PyErr.AttributeError)
    ∧ (∀ i : Int, i < -(st.X.data.length : Int) ∨
        (st.X.data.length : Int) ≤ i →
        st.getitem i = Except.error PyErr.IndexError) := by
  have htr : st.attr_transform = none :=
    init_ok_attr_transform_none num_classes root_dir partition_id
      transform fs st hok
  refine ⟨rfl, fun i h1 h2 => ?_, fun i h => ?_⟩
  · obtain ⟨x, hx⟩ := Tensor.getPy_ok_of_range st.X i h1 h2
    obtain ⟨y, hy⟩ := Tensor.getPy_ok_of_range st.Y i
      (by rw [hXY]; exact h1) (by rw [hXY]; exact h2)
    simp only [DatasetState.getitem, hx, hy, htr]
    rfl
  · have hx := Tensor.getPy_error_of_out_of_range st.X i h
    simp only [DatasetState.getitem, hx]
    rfl

/-- C1 witness: the amended theorem applied to the concrete view `stC1`. -/
theorem length_and_getitem_behavior_witness :
    stC1.len = 1
    ∧ stC1.getitem 0 = Except.error PyErr.AttributeError
    ∧ stC1.getitem 5 = Except.error PyErr.IndexError := by
  have h := length_and_getitem_behavior 10 ["root"] 0 none fsC1 stC1 rfl rfl
  exact ⟨h.1, h.2.1 0 (by decide) (by decide), h.2.2 5 (by decide)⟩

/-- Filesystem holding one partition file for `num_classes = 100`,
`partition_id = 1` under `["r2"]`, with one example. -/
def fsC2 : FileSystem := fun p =>
  if p = ["r2", CIFAR_PartitionedDataset.partition_file_name 100 1] then
    some ⟨⟨[[7]]⟩, ⟨[3]⟩⟩
  else none

/-- The view state that construction over `fsC2` produces. -/
def stC2 : DatasetState :=
  { root_dir := ["r2"]
    partition_id := 1
    partition_path := ["r2",
      CIFAR_PartitionedDataset.partition_file_name 100 1]
    X := ⟨[[7]]⟩
    Y := ⟨[3]⟩
    attr_transform := none
    attr_trasform := none }

/-- C2 counterexample: on a successfully constructed view of length 1,
`__getitem__(2)` raises `IndexError`, not `AttributeError`: the index
lookup `self.X[idx]` fails before the `self.transform` read is reached, so
not every call to `__getitem__` raises `AttributeError`. -/
theorem getitem_c2_counterexample :
    CIFAR_PartitionedDataset.init 100 ["r2"] 1 none fsC2 = Except.ok stC2
    ∧ stC2.getitem 2 = Except.error PyErr.IndexError
    ∧ stC2.getitem 2 ≠ Except.error PyErr.AttributeError := by
  refine ⟨rfl, rfl, fun hcontra => ?_⟩
  rw [show stC2.getitem 2 = Except.error PyErr.IndexError from rfl] at hcontra
  exact absurd hcontra (by simp)

/-- C2 (amended): For every successfully constructed view (either valid
`num_classes`, any partition file with index-aligned arrays), every
`__getitem__` call with an in-range index (`-L ≤ i < L`) raises
`AttributeError`, because the constructor never assigns the `transform`
attribute that `__getitem__` reads (out-of-range indices raise
`IndexError` first); no item access ever returns a pair. -/
theorem getitem_never_returns_pair
    (num_classes : Int) (root_dir : PyPath) (partition_id : Int)
    (transform : Option Transform) (fs : FileSystem) (st : DatasetState)
    (hok : CIFAR_PartitionedDataset.init num_classes root_dir partition_id
      transform fs = Except.ok st)
    (hXY : st.Y.data.length = st.X.data.length) :
    (∀ i : Int, -(st.X.data.length : Int) ≤ i →
        i < (st.X.data.length : Int) →
        st.getitem i = Except.error PyErr.AttributeError)
    ∧ (∀ (i : Int) (p : Feature × Label),
        st.getitem i ≠ Except.ok p) := by
  have htr : st.attr_transform = none :=
    init_ok_attr_transform_none num_classes root_dir partition_id
      transform fs st hok
  have hin : ∀ i : Int, -(st.X.data.length : Int) ≤ i →
      i < (st.X.data.length : Int) →
      st.getitem i = Except.error PyErr.AttributeError := by
    intro i h1 h2
    obtain ⟨x, hx⟩ := Tensor.getPy_ok_of_range st.X i h1 h2
    obtain ⟨y, hy⟩ := Tensor.getPy_ok_of_range st.Y i
      (by rw [hXY]; exact h1) (by rw [hXY]; exact h2)
    simp only [DatasetState.getitem, hx, hy, htr]
    rfl
  refine ⟨hin, fun i p hcontra => ?_⟩
  by_cases hrange : -(st.X.data.length : Int) ≤ i ∧
      i < (st.X.data.length : Int)
  · rw [hin i hrange.1 hrange.2] at hcontra
    exact absurd hcontra (by simp)
  · have hx := Tensor.getPy_error_of_out_of_range st.X i (by omega)
    rw [show st.getitem i = Except.error PyErr.IndexError from by
      simp only [DatasetState.getitem, hx]; rfl] at hcontra
    exact absurd hcontra (by simp)

/-- C2 witness: the amended theorem applied to the concrete view `stC2`. -/
theorem getitem_never_returns_pair_witness :
    stC2.getitem 0 = Except.error PyErr.AttributeError
    ∧ stC2.getitem 2 ≠ Except.ok ([7], 3) := by
  have h := getitem_never_returns_pair 100 ["r2"] 1 none fsC2 stC2 rfl rfl
  exact ⟨h.1 0 (by decide) (by decide), h.2 2 ([7], 3)⟩

/-! ## The `__main__` partition-generation script -/

/-- Dirichlet-distribution array threaded between the two partitioner
calls; `np.empty(0)` is the empty list. -/
abbrev DirichletDist : Type := List Rat

/-- An `XY` pair `(Features, Labels)` of numpy arrays, as consumed and
produced by the external LDA partitioner. -/
abbrev XY : Type := NpArray Feature × NpArray Label

/-- Filesystem side effects of the generation script, in program order:
`dir.mkdir(parents=True, exist_ok=True)` (recursive creation, no error if
the directory already exists) and `torch.save(shard, file)`. -/
inductive FsEffect : Type where
  | mkdirParents (dir : PyPath)
  | save (shard : XY) (file : PyPath)
  deriving DecidableEq, Repr

/-- Python `f"{idx:03}"`: decimal rendering zero-padded to width at
least 3. -/
def pad3 (idx : Nat) : String :=
  String.mk (List.replicate (3 - (toString idx).length) '0') ++ toString idx

/-- The script line `train_dataset = CIFAR10(root=f"{DATA_ROOT}-
{args.num_classes}", train=True, download=True)`; `cifar10` is the
external torchvision `CIFAR10` provider, abstract here, taking the cache
root and the `train` flag. -/
def train_dataset {D : Type} (cifar10 : String → Bool → D)
    (num_classes : Int) : D :=
  cifar10 (DATA_ROOT ++ "-" ++ toString num_classes) true

/-- The script line `test_dataset = CIFAR10(root=f"{DATA_ROOT}-
{args.num_classes}", train=True, download=True)` — note it passes
`train=True` again and uses the `CIFAR10` provider. -/
def test_dataset {D : Type} (cifar10 : String → Bool → D)
    (num_classes : Int) : D :=
  cifar10 (DATA_ROOT ++ "-" ++ toString num_classes) true

/-- The saves of the inner loop `for idx, part in enumerate(partitions):
save(part, save_dir / f"{idx:03}.pt")`. -/
def shard_saves (dir : PyPath) (parts : List XY) : List FsEffect :=
  parts.enum.map fun p => FsEffect.save p.2 (dir ++ [pad3 p.1 ++ ".pt"])

/-- One iteration of the generation loop for `(dataset, data_str)`:
create `save_dir = save_root / data_str` recursively, convert the dataset
to an `XY` pair, call the external `create_lda_partitions` with the running
distribution `acc.2`, save every shard at `save_dir / f"{idx:03}.pt"`, and
return the accumulated effects with the updated distribution. -/
def generate_split {D : Type} (convert : D → XY)
    (create_lda_partitions :
      XY → DirichletDist → Int → Rat → List XY × DirichletDist)
    (num_partitions : Int) (alpha : Rat) (save_root : PyPath)
    (acc : List FsEffect × DirichletDist) (dataset : D)
    (data_str : String) : List FsEffect × DirichletDist :=
  (acc.1 ++ [FsEffect.mkdirParents (save_root ++ [data_str])] ++
      shard_saves (save_root ++ [data_str])
        (create_lda_partitions (convert dataset) acc.2 num_partitions
          alpha).1,
    (create_lda_partitions (convert dataset) acc.2 num_partitions alpha).2)

/-- The `__main__` generation script after argument parsing, as its trace
of filesystem effects.  `save_root = Path(args.save_root) / "partitions" /
"lda" / f"{args.alpha:.2f}"`; the `{:.2f}` float rendering is the
uninterpreted parameter `format2f`.  The `for` loop over the literal list
`[(train_dataset, "train"), (test_dataset, "test")]` is unrolled into two
`generate_split` steps threading `(effects, dist)`, with `dist` initially
`np.empty(0)`.  The unused `basic_transform` assignment of the script is
omitted (it is declarative and never read by the generation path); the
`CIFAR100` provider is in scope (imported by the source) but never
called. -/
def generate {D : Type} (cifar10 cifar100 : String → Bool → D)
    (convert : D → XY)
    (create_lda_partitions :
      XY → DirichletDist → Int → Rat → List XY × DirichletDist)
    (format2f : Rat → String) (num_classes num_partitions : Int)
    (alpha : Rat) (save_root_arg : PyPath) : List FsEffect :=
  (generate_split convert create_lda_partitions num_partitions alpha
    (save_root_arg ++ ["partitions", "lda", format2f alpha])
    (generate_split convert create_lda_partitions num_partitions alpha
      (save_root_arg ++ ["partitions", "lda", format2f alpha])
      ([], ([] : DirichletDist)) (train_dataset cifar10 num_classes)
      "train")
    (test_dataset cifar10 num_classes) "test").1

/-- Result of the first partitioner call of a run: the train split
partitioned with the initially empty distribution. -/
def train_partitions {D : Type} (cifar10 : String → Bool → D)
    (convert : D → XY)
    (create_lda_partitions :
      XY → DirichletDist → Int → Rat → List XY × DirichletDist)
    (num_classes num_partitions : Int) (alpha : Rat) :
    List XY × DirichletDist :=
  create_lda_partitions (convert (train_dataset cifar10 num_classes))
    ([] : DirichletDist) num_partitions alpha

/-- Result of the second partitioner call of a run: the test split
partitioned with the distribution returned by the first call. -/
def test_partitions {D : Type} (cifar10 : String → Bool → D)
    (convert : D → XY)
    (create_lda_partitions :
      XY → DirichletDist → Int → Rat → List XY × DirichletDist)
    (num_classes num_partitions : Int) (alpha : Rat) :
    List XY × DirichletDist :=
  create_lda_partitions (convert (test_dataset cifar10 num_classes))
    (train_partitions cifar10 convert create_lda_partitions num_classes
      num_partitions alpha).2 num_partitions alpha

/-- The full effect trace of a generation run, in closed form: create the
train directory, save the train shards, create the test directory, save
the test shards. -/
theorem generate_trace_eq {D : Type} (cifar10 cifar100 : String → Bool → D)
    (convert : D → XY)
    (create_lda_partitions :
      XY → DirichletDist → Int → Rat → List XY × DirichletDist)
    (format2f : Rat → String) (num_classes num_partitions : Int)
    (alpha : Rat) (save_root_arg : PyPath) :
    generate cifar10 cifar100 convert create_lda_partitions format2f
        num_classes num_partitions alpha save_root_arg =
      FsEffect.mkdirParents
          (save_root_arg ++ ["partitions", "lda", format2f alpha]
            ++ ["train"]) ::
        ((shard_saves
            (save_root_arg ++ ["partitions", "lda", format2f alpha]
              ++ ["train"])
            (train_partitions cifar10 convert create_lda_partitions
              num_classes num_partitions alpha).1
          ++ [FsEffect.mkdirParents
              (save_root_arg ++ ["partitions", "lda", format2f alpha]
                ++ ["test"])])
          ++ shard_saves
              (save_root_arg ++ ["partitions", "lda", format2f alpha]
                ++ ["test"])
              (test_partitions cifar10 convert create_lda_partitions
                num_classes num_partitions alpha).1) := rfl

/-! ## Positional lemmas about the effect trace -/

/-- Length of the save list equals the number of shards. -/
theorem shard_saves_length (dir : PyPath) (parts : List XY) :
    (shard_saves dir parts).length = parts.length := by
  simp [shard_saves]

/-- The `i`-th save writes the `i`-th shard at `dir / f"{i:03}.pt"`. -/
theorem shard_saves_getElem? (dir : PyPath) (parts : List XY) (i : Nat)
    (hi : i < parts.length) :
    (shard_saves dir parts)[i]? =
      some (FsEffect.save parts[i] (dir ++ [pad3 i ++ ".pt"])) := by
  simp [shard_saves, List.getElem?_map, List.getElem?_enum,
    List.getElem?_eq_getElem hi]

/-- Position `i + 1` of the trace shape lands in the first save block. -/
theorem cons_append_getElem?_left {α : Type} (a b : α) (S1 S2 : List α)
    (i : Nat) (hi : i < S1.length) :
    (a :: ((S1 ++ [b]) ++ S2))[i + 1]? = S1[i]? := by
  rw [List.getElem?_cons_succ, List.getElem?_append,
    if_pos (by simp; omega), List.getElem?_append, if_pos hi]

/-- Position `S1.length + 1` of the trace shape is the middle element. -/
theorem cons_append_getElem?_mid {α : Type} (a b : α) (S1 S2 : List α) :
    (a :: ((S1 ++ [b]) ++ S2))[S1.length + 1]? = some b := by
  rw [List.getElem?_cons_succ, List.getElem?_append, if_pos (by simp),
    List.getElem?_append_right (le_refl _)]
  simp

/-- Position `S1.length + 1 + i + 1` of the trace shape lands in the
second save block. -/
theorem cons_append_getElem?_right {α : Type} (a b : α) (S1 S2 : List α)
    (i : Nat) :
    (a :: ((S1 ++ [b]) ++ S2))[S1.length + 1 + i + 1]? = S2[i]? := by
  rw [List.getElem?_cons_succ,
    List.getElem?_append_right (by simp)]
  have h : S1.length + 1 + i - (S1 ++ [b]).length = i := by simp
  rw [h]

/-! ## Claims C7 to C10: the generation script -/

/-- C7: For every generation run and each split in the fixed order
`[train, test]`, every shard returned by the partitioner for that split is
written to `save_root/partitions/lda/{alpha:.2f}/{split}/{idx:03}.pt`
(where `idx` is its position in the returned sequence and `{alpha:.2f}` is
the `format2f` rendering of the concentration), at a trace position
strictly after the recursive, existence-tolerant creation of that split
directory. -/
theorem generate_saves_each_shard_after_mkdir {D : Type}
    (cifar10 cifar100 : String → Bool → D) (convert : D → XY)
    (create_lda_partitions :
      XY → DirichletDist → Int → Rat → List XY × DirichletDist)
    (format2f : Rat → String) (num_classes num_partitions : Int)
    (alpha : Rat) (save_root_arg : PyPath) :
    (∀ i, ∀ hi : i < (train_partitions cifar10 convert
        create_lda_partitions num_classes num_partitions alpha).1.length,
      ∃ j k : Nat, j < k
        ∧ (generate cifar10 cifar100 convert create_lda_partitions
            format2f num_classes num_partitions alpha save_root_arg)[j]?
          = some (FsEffect.mkdirParents
              (save_root_arg ++ ["partitions", "lda", format2f alpha]
                ++ ["train"]))
        ∧ (generate cifar10 cifar100 convert create_lda_partitions
            format2f num_classes num_partitions alpha save_root_arg)[k]?
          = some (FsEffect.save
              ((train_partitions cifar10 convert create_lda_partitions
                num_classes num_partitions alpha).1[i])
              (save_root_arg ++ ["partitions", "lda", format2f alpha]
                ++ ["train"] ++ [pad3 i ++ ".pt"])))
    ∧ (∀ i, ∀ hi : i < (test_partitions cifar10 convert
        create_lda_partitions num_classes num_partitions alpha).1.length,
      ∃ j k : Nat, j < k
        ∧ (generate cifar10 cifar100 convert create_lda_partitions
            format2f num_classes num_partitions alpha save_root_arg)[j]?
          = some (FsEffect.mkdirParents
              (save_root_arg ++ ["partitions", "lda", format2f alpha]
                ++ ["test"]))
        ∧ (generate cifar10 cifar100 convert create_lda_partitions
            format2f num_classes num_partitions alpha save_root_arg)[k]?
          = some (FsEffect.save
              ((test_partitions cifar10 convert create_lda_partitions
                num_classes num_partitions alpha).1[i])
              (save_root_arg ++ ["partitions", "lda", format2f alpha]
                ++ ["test"] ++ [pad3 i ++ ".pt"]))) := by
  rw [generate_trace_eq]
  constructor
  · intro i hi
    refine ⟨0, i + 1, Nat.succ_pos i, List.getElem?_cons_zero, ?_⟩
    rw [cons_append_getElem?_left _ _ _ _ i
      (by rw [shard_saves_length]; exact hi)]
    exact shard_saves_getElem? _ _ i hi
  · intro i hi
    refine ⟨(shard_saves
        (save_root_arg ++ ["partitions", "lda", format2f alpha]
          ++ ["train"])
        (train_partitions cifar10 convert create_lda_partitions
          num_classes num_partitions alpha).1).length + 1,
      (shard_saves
        (save_root_arg ++ ["partitions", "lda", format2f alpha]
          ++ ["train"])
        (train_partitions cifar10 convert create_lda_partitions
          num_classes num_partitions alpha).1).length + 1 + i + 1,
      by omega, cons_append_getElem?_mid _ _ _ _, ?_⟩
    rw [cons_append_getElem?_right]
    exact shard_saves_getElem? _ _ i hi

/-- C7 witness: a run with a one-shard partitioner over a unit dataset;
the train shard is saved at `["s", "partitions", "lda", "0.10", "train",
"000.pt"]` after the train directory is created. -/
theorem generate_saves_each_shard_after_mkdir_witness :
    ∃ j k : Nat, j < k
      ∧ (generate (fun _ _ => ()) (fun _ _ => ()) (fun _ => (⟨[]⟩, ⟨[]⟩))
          (fun xy d _ _ => ([xy], d)) (fun _ => "0.10") 10 1 (1 / 10)
          ["s"])[j]?
        = some (FsEffect.mkdirParents
            (["s"] ++ ["partitions", "lda", "0.10"] ++ ["train"]))
      ∧ (generate (fun _ _ => ()) (fun _ _ => ()) (fun _ => (⟨[]⟩, ⟨[]⟩))
          (fun xy d _ _ => ([xy], d)) (fun _ => "0.10") 10 1 (1 / 10)
          ["s"])[k]?
        = some (FsEffect.save
            ((train_partitions (fun _ _ => ()) (fun _ => (⟨[]⟩, ⟨[]⟩))
              (fun xy d _ _ => ([xy], d)) 10 1 (1 / 10)).1[0])
            (["s"] ++ ["partitions", "lda", "0.10"] ++ ["train"]
              ++ [pad3 0 ++ ".pt"])) :=
  (generate_saves_each_shard_after_mkdir (fun _ _ => ()) (fun _ _ => ())
    (fun _ => (⟨[]⟩, ⟨[]⟩)) (fun xy d _ _ => ([xy], d)) (fun _ => "0.10")
    10 1 (1 / 10) ["s"]).1 0 (by decide)

/-- The shards the effect trace saves into the split directory whose last
component is `split` (observer over the trace, used to state which
partitioner output each split's files come from). -/
def splitSaves (trace : List FsEffect) (split : String) : List XY :=
  trace.filterMap fun e =>
    match e with
    | FsEffect.save part file =>
        if file.dropLast.getLast? = some split then some part else none
    | FsEffect.mkdirParents _ => none

/-- Prepending a directory creation changes no saved shards. -/
theorem splitSaves_cons_mkdir (d : PyPath) (tr : List FsEffect)
    (s : String) :
    splitSaves (FsEffect.mkdirParents d :: tr) s = splitSaves tr s := by
  simp [splitSaves]

/-- `splitSaves` distributes over trace concatenation. -/
theorem splitSaves_append (t1 t2 : List FsEffect) (s : String) :
    splitSaves (t1 ++ t2) s = splitSaves t1 s ++ splitSaves t2 s := by
  simp [splitSaves, List.filterMap_append]

/-- The saves of one split block belong to that split and no other. -/
theorem splitSaves_shard_saves (sr : PyPath) (s s' : String)
    (parts : List XY) :
    splitSaves (shard_saves (sr ++ [s]) parts) s'
      = if s = s' then parts else [] := by
  unfold splitSaves shard_saves
  rw [List.filterMap_map]
  by_cases h : s = s'
  · subst h
    rw [if_pos rfl]
    simp only [Function.comp_def, List.dropLast_concat,
      List.getLast?_concat, if_pos rfl, ite_true, eq_self_iff_true]
    have hf : (fun p : Nat × XY => some p.2) = some ∘ Prod.snd := rfl
    rw [hf, List.filterMap_eq_map, List.enum_map_snd]
  · rw [if_neg h]
    simp [Function.comp_def, List.dropLast_concat, List.getLast?_concat, h]

/-- C8: The running Dirichlet-distribution array starts empty
(`np.empty(0)`), is passed to the first (train) partitioning call, and the
distribution returned by that call is exactly the one passed into the
second (test) partitioning call: the shards saved under `train` are the
first output of `create_lda_partitions(np_train, [], n, alpha)`, and the
shards saved under `test` are the first output of
`create_lda_partitions(np_test, dist, n, alpha)` where `dist` is the
distribution returned by the train call. -/
theorem generate_threads_dirichlet_dist {D : Type}
    (cifar10 cifar100 : String → Bool → D) (convert : D → XY)
    (create_lda_partitions :
      XY → DirichletDist → Int → Rat → List XY × DirichletDist)
    (format2f : Rat → String) (num_classes num_partitions : Int)
    (alpha : Rat) (save_root_arg : PyPath) :
    splitSaves (generate cifar10 cifar100 convert create_lda_partitions
        format2f num_classes num_partitions alpha save_root_arg) "train"
      = (create_lda_partitions
          (convert (train_dataset cifar10 num_classes))
          ([] : DirichletDist) num_partitions alpha).1
    ∧ splitSaves (generate cifar10 cifar100 convert create_lda_partitions
        format2f num_classes num_partitions alpha save_root_arg) "test"
      = (create_lda_partitions (convert (test_dataset cifar10 num_classes))
          (create_lda_partitions
            (convert (train_dataset cifar10 num_classes))
            ([] : DirichletDist) num_partitions alpha).2
          num_partitions alpha).1 := by
  refine ⟨?_, ?_⟩ <;>
  · rw [generate_trace_eq, splitSaves_cons_mkdir, splitSaves_append,
      splitSaves_append, splitSaves_shard_saves, splitSaves_shard_saves]
    simp [splitSaves, train_partitions, test_partitions]

/-- C9: Both the dataset labeled `train` and the dataset labeled `test`
are obtained by the same `train=True` request to the CIFAR10 provider,
cached under `{DATA_ROOT}-{num_classes}`, so the two source datasets are
identical. -/
theorem datasets_both_train_split {D : Type}
    (cifar10 : String → Bool → D) (num_classes : Int) :
    test_dataset cifar10 num_classes = train_dataset cifar10 num_classes
    ∧ train_dataset cifar10 num_classes
      = cifar10 (DATA_ROOT ++ "-" ++ toString num_classes) true :=
  ⟨rfl, rfl⟩

/-- C10: The generation run never consults the CIFAR100 provider (its
trace is unchanged under any replacement of that provider); even for
`num_classes = 100` both fetches go to the CIFAR10 provider; and
`num_classes` influences the run only through the cache-root string
`{DATA_ROOT}-{num_classes}`: if the CIFAR10 provider returns the same
dataset for the two roots, the whole trace is unchanged. -/
theorem generate_always_uses_cifar10 {D : Type}
    (cifar10 cifar100 cifar100' : String → Bool → D) (convert : D → XY)
    (create_lda_partitions :
      XY → DirichletDist → Int → Rat → List XY × DirichletDist)
    (format2f : Rat → String)
    (num_classes num_classes' num_partitions : Int) (alpha : Rat)
    (save_root_arg : PyPath) :
    generate cifar10 cifar100 convert create_lda_partitions format2f
        num_classes num_partitions alpha save_root_arg
      = generate cifar10 cifar100' convert create_lda_partitions format2f
        num_classes num_partitions alpha save_root_arg
    ∧ train_dataset cifar10 (100 : Int)
      = cifar10 (DATA_ROOT ++ "-" ++ toString (100 : Int)) true
    ∧ test_dataset cifar10 (100 : Int)
      = cifar10 (DATA_ROOT ++ "-" ++ toString (100 : Int)) true
    ∧ (cifar10 (DATA_ROOT ++ "-" ++ toString num_classes) true
        = cifar10 (DATA_ROOT ++ "-" ++ toString num_classes') true →
      generate cifar10 cifar100 convert create_lda_partitions format2f
          num_classes num_partitions alpha save_root_arg
        = generate cifar10 cifar100 convert create_lda_partitions format2f
          num_classes' num_partitions alpha save_root_arg) := by
  refine ⟨rfl, rfl, rfl, fun h => ?_⟩
  simp only [generate, generate_split, train_dataset, test_dataset, h]

/-- C10 witness: with a constant CIFAR10 provider, changing the
`num_classes` flag from 10 to 100 leaves the whole effect trace
unchanged. -/
theorem generate_always_uses_cifar10_witness :
    generate (fun _ _ => (0 : Nat)) (fun _ _ => 0) (fun _ => (⟨[]⟩, ⟨[]⟩))
        (fun xy d _ _ => ([xy], d)) (fun _ => "0.10") 10 1 (1 / 10) ["s"]
      = generate (fun _ _ => (0 : Nat)) (fun _ _ => 0)
        (fun _ => (⟨[]⟩, ⟨[]⟩)) (fun xy d _ _ => ([xy], d))
        (fun _ => "0.10") 100 1 (1 / 10) ["s"] :=
  (generate_always_uses_cifar10 (fun _ _ => (0 : Nat)) (fun _ _ => 0)
    (fun _ _ => 0) (fun _ => (⟨[]⟩, ⟨[]⟩)) (fun xy d _ _ => ([xy], d))
    (fun _ => "0.10") 10 100 1 (1 / 10) ["s"]).2.2.2 rfl
